import Mathlib

/-!
Verification of the HVAC permit-ingestion backend.

This file gives a shallow embedding of the parts of the backend that the
checked properties are about, translated from the Python source:

* `backend/app/services/address_normalizer.py`  (address normalization)
* `backend/app/services/property_aggregator.py` (scoring / tiering / merge)
* `backend/app/workers/job_processor.py`        (retry and cancellation policy)
* `backend/app/services/rate_limiter.py`        (proactive throttling)
* `backend/app/services/accela_client.py`       (token refresh classification,
                                                 permit fetch and date validation)

Machine reals (`float`) that only ever hold exact decimal configuration
constants and epoch seconds are embedded as rationals; Python `int` is
embedded as `Int`/`Nat`; fallible values as `Option`.
-/

namespace HVAC

/-! ## Calendar dates

`datetime.date` values, compared lexicographically by (year, month, day)
exactly as Python compares `date` objects. -/

structure PDate where
  year : Int
  month : Nat
  day : Nat
deriving DecidableEq, Repr

/-- Python `d1 < d2` on `datetime.date`: lexicographic on (year, month, day). -/
def dateLt (a b : PDate) : Bool :=
  a.year < b.year ||
    (a.year = b.year && (a.month < b.month ||
      (a.month = b.month && a.day < b.day)))

/-! ## PropertyAggregator: pure scoring helpers
(`property_aggregator.py`, lines 56-270) -/

/-- `PropertyAggregator.calculate_hvac_age`: calendar-year subtraction with a
month/day adjustment when the anniversary has not yet occurred this year,
clamped below at 0 (`max(0, age_years)`). -/
def calculate_hvac_age (today hvac_date : PDate) : Nat :=
  let age_years : Int := today.year - hvac_date.year
  let adjusted : Int :=
    if today.month < hvac_date.month ∨
        (today.month = hvac_date.month ∧ today.day < hvac_date.day) then
      age_years - 1
    else
      age_years
  adjusted.toNat

/-- `PropertyAggregator.calculate_lead_score`: piecewise-linear score of the
HVAC age (the Python `int(...)` casts are identities on integer input). -/
def calculate_lead_score (hvac_age_years : Nat) : Nat :=
  if hvac_age_years ≥ 20 then 100
  else if hvac_age_years ≥ 15 then 80 + (hvac_age_years - 15) * 3
  else if hvac_age_years ≥ 10 then 60 + (hvac_age_years - 10) * 3
  else if hvac_age_years ≥ 5 then 40 + (hvac_age_years - 5) * 3
  else hvac_age_years * 7

/-- `PropertyAggregator.TIER_THRESHOLDS` / `determine_lead_tier`. -/
def determine_lead_tier (hvac_age_years : Nat) : String :=
  if hvac_age_years ≥ 15 then "HOT"
  else if hvac_age_years ≥ 10 then "WARM"
  else if hvac_age_years ≥ 5 then "COOL"
  else "COLD"

/-- `PropertyAggregator.QUALIFICATION_THRESHOLD` / `is_qualified_lead`. -/
def is_qualified_lead (hvac_age_years : Nat) : Bool :=
  hvac_age_years ≥ 5

/-- Python truthiness of an optional string (`None` and `""` are falsy). -/
def strTruthy : Option String → Bool
  | none => false
  | some s => s ≠ ""

/-- `PropertyAggregator.calculate_contact_completeness`. -/
def calculate_contact_completeness
    (owner_phone owner_email : Option String) : String :=
  if strTruthy owner_phone && strTruthy owner_email then "complete"
  else if strTruthy owner_phone || strTruthy owner_email then "partial"
  else "minimal"

/-- `PropertyAggregator.calculate_affluence_tier` (`if not property_value`
is true for both `None` and `0`). -/
def calculate_affluence_tier (property_value : Option ℚ) : String :=
  match property_value with
  | none => "standard"
  | some v =>
    if v = 0 then "standard"
    else if v ≥ 500000 then "ultra_high"
    else if v ≥ 350000 then "high"
    else if v ≥ 200000 then "medium"
    else "standard"

/-- `PropertyAggregator.calculate_pipeline_assignment`. -/
def calculate_pipeline_assignment
    (lead_tier : String) (contact_completeness : String)
    (affluence_tier : String) : String × Nat :=
  if lead_tier = "HOT" then
    if contact_completeness = "complete" then ("hot_call", 95)
    else if contact_completeness = "partial" then ("premium_mailer", 85)
    else ("premium_mailer", 75)
  else if lead_tier = "WARM" then
    if affluence_tier = "ultra_high" ∨ affluence_tier = "high" then
      ("premium_mailer", 80)
    else if contact_completeness = "complete" then ("nurture_drip", 75)
    else ("nurture_drip", 70)
  else if lead_tier = "COOL" then
    if affluence_tier = "ultra_high" ∨ affluence_tier = "high" then
      ("nurture_drip", 65)
    else ("retargeting_ads", 60)
  else ("cold_storage", 50)

/-! ## AddressNormalizer (`address_normalizer.py`)

`AddressNormalizer.normalize` upper-cases, collapses whitespace (`\s+`),
expands the fixed suffix/directional dictionaries with `re.sub(r'\bABBREV\b', FULL, s)`
applied in dictionary insertion order, removes `,`/`.`, and collapses and
strips whitespace again.  Word boundaries (`\b`) are positions between a
`\w` character (`[A-Za-z0-9_]`) and a non-`\w` character or string edge. -/

/-- Python `\w` on the ASCII addresses this system handles. -/
def isWordChar (c : Char) : Bool := c.isAlphanum || c = '_'

/-- Python `\s` (ASCII whitespace). -/
def isSpaceChar (c : Char) : Bool :=
  c = ' ' || c = '\t' || c = '\n' || c = '\x0d' || c = '\x0b' || c = '\x0c'

/-- Python `str.strip()`: drop whitespace from both ends. -/
def pyStrip (l : List Char) : List Char :=
  ((l.dropWhile isSpaceChar).reverse.dropWhile isSpaceChar).reverse

/-- `re.sub(r'\s+', ' ', s)`: each maximal whitespace run becomes one space.
The flag records whether the previous character was part of a run. -/
def collapseWSAux : Bool → List Char → List Char
  | _, [] => []
  | prevSpace, c :: cs =>
    if isSpaceChar c then
      if prevSpace then collapseWSAux true cs
      else ' ' :: collapseWSAux true cs
    else c :: collapseWSAux false cs

def collapseWS (l : List Char) : List Char := collapseWSAux false l

/-- `\b` to the left of a match: start of string or a non-word character. -/
def boundaryBefore : Option Char → Bool
  | none => true
  | some p => !isWordChar p

/-- `\b` to the right of a match: end of string or a non-word character. -/
def boundaryAfter : List Char → Bool
  | [] => true
  | d :: _ => !isWordChar d

/-- One left-to-right pass of `re.sub(r'\b' + ab + r'\b', full, s)`:
non-overlapping matches, scanning resumes after the matched text, and
boundaries are judged against the original text.  The fuel is the length of
the scanned list; every step consumes at least one character, so the fuel
never runs out when initialized with the list length. -/
def subWordGo (ab full : List Char) : Nat → Option Char → List Char → List Char
  | 0, _, l => l
  | _ + 1, _, [] => []
  | fuel + 1, prev, c :: cs =>
    if ab ≠ [] ∧ boundaryBefore prev ∧ ab.isPrefixOf (c :: cs) ∧
        boundaryAfter ((c :: cs).drop ab.length) then
      full ++ subWordGo ab full fuel (some (ab.getLast!)) ((c :: cs).drop ab.length)
    else
      c :: subWordGo ab full fuel (some c) cs

/-- `re.sub(r'\bab\b', full, s)` for a word-made abbreviation `ab`. -/
def subWord (ab full l : List Char) : List Char :=
  subWordGo ab full l.length none l

/-- `re.sub(r'[,.]', '', s)`. -/
def removePunct (l : List Char) : List Char :=
  l.filter (fun c => !(c = ',' || c = '.'))

/-- `AddressNormalizer.STREET_SUFFIXES`, in dict insertion order. -/
def STREET_SUFFIXES : List (String × String) :=
  [("ST", "STREET"), ("AVE", "AVENUE"), ("BLVD", "BOULEVARD"), ("RD", "ROAD"),
   ("DR", "DRIVE"), ("LN", "LANE"), ("CT", "COURT"), ("CIR", "CIRCLE"),
   ("PL", "PLACE"), ("TER", "TERRACE"), ("WAY", "WAY"), ("PKWY", "PARKWAY"),
   ("HWY", "HIGHWAY"), ("SQ", "SQUARE"), ("TR", "TRAIL"), ("TPKE", "TURNPIKE"),
   ("LOOP", "LOOP"), ("PATH", "PATH"), ("ALY", "ALLEY"), ("XING", "CROSSING"),
   ("PASS", "PASS"), ("RUN", "RUN"), ("ROW", "ROW")]

/-- `AddressNormalizer.DIRECTIONALS`, in dict insertion order. -/
def DIRECTIONALS : List (String × String) :=
  [("N", "NORTH"), ("S", "SOUTH"), ("E", "EAST"), ("W", "WEST"),
   ("NE", "NORTHEAST"), ("NW", "NORTHWEST"), ("SE", "SOUTHEAST"),
   ("SW", "SOUTHWEST")]

/-- `AddressNormalizer.normalize`. -/
def normalize (address : String) : String :=
  if address = "" then ""
  else
    let s0 := collapseWS (pyStrip (address.data.map Char.toUpper))
    let s1 := STREET_SUFFIXES.foldl (fun acc p => subWord p.1.data p.2.data acc) s0
    let s2 := DIRECTIONALS.foldl (fun acc p => subWord p.1.data p.2.data acc) s1
    ⟨pyStrip (collapseWS (removePunct s2))⟩

/-! ## PropertyAggregator.process_permit (`property_aggregator.py`, lines 272-606)

The permit dictionaries handed to `process_permit` are embedded as a record of
the fields the aggregator reads; `opened_date` is already parsed to a date
(the source parses ISO strings before using it).  The properties and leads
tables are embedded as maps: one county (tenant) is in scope, properties are
keyed by their `normalized_address` column (unique per county by the
`county_id,normalized_address` upsert conflict target), leads by their
`property_id` (one lead per property by the `property_id` conflict target). -/

/-- Python `int()` truncation toward zero of an exact numeric value. -/
def ratTrunc (v : ℚ) : Int := if 0 ≤ v then ⌊v⌋ else -⌊-v⌋

structure Permit where
  id : Option String
  property_address : Option String
  opened_date : Option PDate
  owner_name : Option String
  owner_phone : Option String
  owner_email : Option String
  property_value : Option ℚ
  year_built : Option Int
  lot_size : Option ℚ
  parcel_number : Option String
deriving Repr, DecidableEq

structure Property where
  normalized_address : String
  most_recent_hvac_permit_id : Option String
  most_recent_hvac_date : Option PDate
  hvac_age_years : Nat
  lead_score : Nat
  lead_tier : String
  is_qualified : Bool
  owner_name : Option String
  owner_phone : Option String
  owner_email : Option String
  parcel_number : Option String
  year_built : Option Int
  lot_size_sqft : Option Int
  total_property_value : Option ℚ
  total_hvac_permits : Nat
  contact_completeness : String
  affluence_tier : String
  recommended_pipeline : String
  pipeline_confidence : Nat
deriving Repr, DecidableEq

structure Lead where
  property_key : String
  permit_id : Option String
  lead_score : Nat
  lead_tier : String
  qualification_reason : String
  notes : String
  disqualified : Bool
  disqualification_reason : Option String
deriving Repr, DecidableEq

/-- `int(permit_data.get('lot_size')) if permit_data.get('lot_size') else None`. -/
def lotSizeSqft (p : Permit) : Option Int :=
  match p.lot_size with
  | none => none
  | some v => if v = 0 then none else some (ratTrunc v)

/-- `PropertyAggregator.create_qualification_reason` (the digit grouping that
Python's `:,` format applies to the dollar amount is elided). -/
def create_qualification_reason (hvac_age_years : Nat)
    (property_value : Option ℚ) : String :=
  let base := "HVAC " ++ toString hvac_age_years ++ " years old"
  match property_value with
  | none => base
  | some v =>
    if v = 0 then base
    else base ++ ", property value $" ++ toString (ratTrunc v)

/-- The `notes` string written on lead rows. -/
def leadNotes (hvac_age_years : Nat) (lead_tier : String) : String :=
  "HVAC system " ++ toString hvac_age_years ++ " years old (" ++
    lead_tier ++ " tier)"

def pad2 (n : Nat) : String := if n < 10 then "0" ++ toString n else toString n

/-- `date.isoformat()`. -/
def isoDate (d : PDate) : String :=
  toString d.year ++ "-" ++ pad2 d.month ++ "-" ++ pad2 d.day

structure AggState where
  props : String → Option Property
  leads : String → Option Lead

/-- The `normalized_address` used for the property lookup
(`process_permit`, lines 289-301, 315-319): the normalized raw address when
one is present (Python truthiness: `None` and `""` are absent), else the
synthetic `PERMIT-<id>` key with `'unknown'` as the id fallback. -/
def lookupKeyOf (p : Permit) : String :=
  match p.property_address with
  | some a => if a = "" then "PERMIT-" ++ p.id.getD "unknown" else normalize a
  | none => "PERMIT-" ++ p.id.getD "unknown"

/-- The `normalized_address` column value that `_create_property` writes:
`parsed_address.normalized_address`, i.e. `normalize` of the raw address or of
the synthetic key.  For a permit with a raw address this equals
`lookupKeyOf`. -/
def storeKeyOf (p : Permit) : String :=
  match p.property_address with
  | some a =>
    if a = "" then normalize ("PERMIT-" ++ p.id.getD "unknown") else normalize a
  | none => normalize ("PERMIT-" ++ p.id.getD "unknown")

/-- The property row built by `_create_property` (`total_hvac_permits` 1). -/
def createdProperty (today : PDate) (p : Permit) (d : PDate)
    (storeKey : String) : Property :=
  let age := calculate_hvac_age today d
  let tier := determine_lead_tier age
  let cc := calculate_contact_completeness p.owner_phone p.owner_email
  let aff := calculate_affluence_tier p.property_value
  let pipe := calculate_pipeline_assignment tier cc aff
  { normalized_address := storeKey
    most_recent_hvac_permit_id := p.id
    most_recent_hvac_date := some d
    hvac_age_years := age
    lead_score := calculate_lead_score age
    lead_tier := tier
    is_qualified := is_qualified_lead age
    owner_name := p.owner_name
    owner_phone := p.owner_phone
    owner_email := p.owner_email
    parcel_number := p.parcel_number
    year_built := p.year_built
    lot_size_sqft := lotSizeSqft p
    total_property_value := p.property_value
    total_hvac_permits := 1
    contact_completeness := cc
    affluence_tier := aff
    recommended_pipeline := pipe.1
    pipeline_confidence := pipe.2 }

/-- The row update performed by `_update_property`: recomputes the derived
fields from the more recent permit and bumps `total_hvac_permits`;
`normalized_address` and `parcel_number` are not among the updated columns. -/
def updatedProperty (today : PDate) (p : Permit) (d : PDate)
    (prop : Property) : Property :=
  let age := calculate_hvac_age today d
  let tier := determine_lead_tier age
  let cc := calculate_contact_completeness p.owner_phone p.owner_email
  let aff := calculate_affluence_tier p.property_value
  let pipe := calculate_pipeline_assignment tier cc aff
  { prop with
    most_recent_hvac_permit_id := p.id
    most_recent_hvac_date := some d
    hvac_age_years := age
    lead_score := calculate_lead_score age
    lead_tier := tier
    is_qualified := is_qualified_lead age
    owner_name := p.owner_name
    owner_phone := p.owner_phone
    owner_email := p.owner_email
    year_built := p.year_built
    lot_size_sqft := lotSizeSqft p
    total_property_value := p.property_value
    total_hvac_permits := prop.total_hvac_permits + 1
    contact_completeness := cc
    affluence_tier := aff
    recommended_pipeline := pipe.1
    pipeline_confidence := pipe.2 }

/-- `_create_lead`'s upsert with conflict target `property_id`: a fresh row,
or an update of the listed columns on an existing row (the disqualification
columns are not listed, so they keep their values). -/
def leadUpsert (existing : Option Lead) (key : String) (prop : Property) : Lead :=
  let qr := create_qualification_reason prop.hvac_age_years prop.total_property_value
  let nt := leadNotes prop.hvac_age_years prop.lead_tier
  match existing with
  | some old =>
    { old with
      permit_id := prop.most_recent_hvac_permit_id
      lead_score := prop.lead_score
      lead_tier := prop.lead_tier
      qualification_reason := qr
      notes := nt }
  | none =>
    { property_key := key
      permit_id := prop.most_recent_hvac_permit_id
      lead_score := prop.lead_score
      lead_tier := prop.lead_tier
      qualification_reason := qr
      notes := nt
      disqualified := false
      disqualification_reason := none }

/-- `_update_lead`: disqualify a no-longer-qualified lead (non-destructively),
refresh a qualified one (clearing any disqualification), or fall back to
`_create_lead`.  Returns the updated leads table and the lead id handed back. -/
def updateLeadTable (leads : String → Option Lead) (key : String)
    (prop : Property) : (String → Option Lead) × Option String :=
  match leads key with
  | some old =>
    if !prop.is_qualified then
      let dr := "New HVAC installed " ++
        (match prop.most_recent_hvac_date with
         | some d => isoDate d
         | none => "None") ++
        " (now " ++ toString prop.hvac_age_years ++ " years old)"
      let lead' := { old with
        lead_score := prop.lead_score
        lead_tier := prop.lead_tier
        disqualified := true
        disqualification_reason := some dr }
      (fun k => if k = key then some lead' else leads k, some key)
    else
      let lead' := { old with
        lead_score := prop.lead_score
        lead_tier := prop.lead_tier
        qualification_reason :=
          create_qualification_reason prop.hvac_age_years prop.total_property_value
        notes := leadNotes prop.hvac_age_years prop.lead_tier
        disqualified := false
        disqualification_reason := none }
      (fun k => if k = key then some lead' else leads k, some key)
  | none =>
    let lead' := leadUpsert none key prop
    (fun k => if k = key then some lead' else leads k, some key)

structure PPOut where
  state : AggState
  property_key : Option String
  lead_key : Option String
  was_created : Bool

/-- `PropertyAggregator.process_permit`: skip permits without a date; look the
property up by normalized address; create it (with a companion lead) when
absent; when present, overwrite the denormalized fields and re-score only if
the permit's date is strictly greater than the stored most-recent date (or no
date is stored), otherwise only bump the running permit counter. -/
def processPermit (today : PDate) (st : AggState) (p : Permit) : PPOut :=
  match p.opened_date with
  | none => ⟨st, none, none, false⟩
  | some d =>
    let lk := lookupKeyOf p
    match st.props lk with
    | some prop =>
      let shouldOverwrite :=
        match prop.most_recent_hvac_date with
        | none => true
        | some cur => dateLt cur d
      if shouldOverwrite then
        let prop' := updatedProperty today p d prop
        let props' := fun k => if k = lk then some prop' else st.props k
        let lu := updateLeadTable st.leads lk prop'
        ⟨⟨props', lu.1⟩, some lk, lu.2, false⟩
      else
        let prop' := { prop with total_hvac_permits := prop.total_hvac_permits + 1 }
        ⟨⟨fun k => if k = lk then some prop' else st.props k, st.leads⟩,
          some lk, none, false⟩
    | none =>
      let sk := storeKeyOf p
      let prop' := createdProperty today p d sk
      let props' := fun k => if k = sk then some prop' else st.props k
      let lead' := leadUpsert (st.leads sk) sk prop'
      let leads' := fun k => if k = sk then some lead' else st.leads k
      ⟨⟨props', leads'⟩, some sk, some sk, true⟩

/-! ## JobProcessor (`job_processor.py`)

The failure handling of `_poll_and_process` (lines 166-234) and the
period-skip logic of `_process_initial_pull` (lines 383-438) are embedded.
A job row is embedded with the fields those paths read and write; the
`years_status` JSON map is a `String → Option String` keyed by `str(year)`. -/

structure BgJob where
  status : String
  retry_count : Nat
  max_retries : Option Nat
  years_status : String → Option String
  current_year : Option Nat
  error_message : Option String

/-- The two `except` classes of `_poll_and_process`: `TokenExpiredError`
(layer 6, fail fast) and every other `Exception`. -/
inductive JobOutcome
  | tokenExpired (msg : String)
  | otherError (msg : String)

/-- The failure handling of `_poll_and_process`: a token expiry marks the job
`failed` immediately; any other exception with `retry_count < max_retries`
(the row default for `max_retries` is 3) returns the job to `pending` with
`retry_count + 1`, resetting `current_year` but deliberately leaving
`years_status` untouched; otherwise the job is marked permanently `failed`
with the error captured. -/
def handleJobFailure (job : BgJob) (o : JobOutcome) : BgJob :=
  match o with
  | .tokenExpired msg =>
    { job with
      status := "failed"
      error_message := some ("🔐 RE-AUTHENTICATION REQUIRED: " ++ msg) }
  | .otherError msg =>
    if job.retry_count < job.max_retries.getD 3 then
      { job with
        status := "pending"
        retry_count := job.retry_count + 1
        current_year := none
        error_message := some msg }
    else
      { job with
        status := "failed"
        error_message := some msg }

/-- The year range of `_process_initial_pull`: `range(start_year, end_year + 1)`. -/
def yearKeys (startY endY : Nat) : List Nat :=
  List.range' startY (endY + 1 - startY)

/-- The `years_status` dict after the resume merge (lines 405-411): every year
of the range initialized to `'not_started'`, then overwritten by the statuses
preserved from the previous attempt. -/
def mergedYearsStatus (startY endY : Nat) (existing : String → Option String) :
    String → Option String :=
  fun k =>
    match existing k with
    | some v => some v
    | none =>
      if (yearKeys startY endY).any (fun y => toString y = k) then
        some "not_started"
      else none

/-- Line 434: a year is skipped (`continue`, no fetch) exactly when its merged
status is `'completed'`. -/
def yearIsSkipped (ys : String → Option String) (y : Nat) : Bool :=
  ys (toString y) = some "completed"

/-- The years an attempt actually fetches: the range minus the skipped ones. -/
def yearsFetched (startY endY : Nat) (existing : String → Option String) :
    List Nat :=
  (yearKeys startY endY).filter
    (fun y => !yearIsSkipped (mergedYearsStatus startY endY existing) y)

/-- `JobProcessor._is_job_cancelled_or_deleted` (lines 1017-1049) applied to
the re-read status of the job row (`none` = row deleted). -/
def isJobCancelledOrDeleted (row : Option String) : Bool :=
  match row with
  | none => true
  | some s => s = "cancelled" || s = "failed" || s = "completed"

/-- The message of the exception raised at a progress checkpoint when
`_is_job_cancelled_or_deleted` returns true (line 524).  It is a plain
`Exception`, so it reaches the generic retry handler of `_poll_and_process`,
not a dedicated cancellation path. -/
def cancellationExcMessage : String := "Job was cancelled or deleted by user"

/-! ## AccelaRateLimiter (`rate_limiter.py`)

Timestamps (epoch seconds) and the threshold are embedded as rationals; the
`random.uniform` jitters are parameters constrained in the theorems to the
intervals the source draws from.  `AccelaClient` constructs the limiter with
the configured threshold `settings.accela_rate_limit_threshold` (default
0.10 in `config.py`; the limiter's own signature default is 0.15). -/

def accelaRateLimitThreshold : ℚ := 1/10

structure RateLimiterState where
  threshold : ℚ
  fallback_delay_pagination : ℚ
  fallback_delay_enrichment : ℚ
  limit : Option Int
  remaining : Option Int
  reset : Option ℚ

/-- `AccelaRateLimiter.should_pause`: without both limit and remaining, never
pause; otherwise pause exactly when `remaining / limit < threshold`. -/
def shouldPause (st : RateLimiterState) : Bool :=
  match st.limit, st.remaining with
  | some l, some r => (r : ℚ) / (l : ℚ) < st.threshold
  | _, _ => false

/-- `AccelaRateLimiter.get_delay_until_safe` at time `now`.  `jz`, `jp`, `jf`
stand for the three `random.uniform` draws of the source:
`uniform(0.1, 0.5)` added when the quota is exhausted, `uniform(0, 0.1*delay)`
added to the pacing delay, and the `uniform(0.1, 0.3)` default. -/
def getDelayUntilSafe (st : RateLimiterState) (now jz jp jf : ℚ) : ℚ :=
  match st.limit, st.remaining, st.reset with
  | some _, some r, some reset =>
    let secondsUntilReset := max 0 (reset - now)
    if r = 0 then
      secondsUntilReset + jz
    else
      let safeRemaining : Int := ratTrunc ((r : ℚ) * (8/10))
      if 0 < safeRemaining ∧ 0 < secondsUntilReset then
        secondsUntilReset / (safeRemaining : ℚ) + jp
      else jf
  | _, _, _ => st.fallback_delay_pagination

/-- `AccelaRateLimiter.wait_if_needed`: the slept delay, or `none` when no
sleep happens. -/
def waitIfNeeded (st : RateLimiterState) (now jz jp jf : ℚ) : Option ℚ :=
  if shouldPause st then some (getDelayUntilSafe st now jz jp jf) else none

/-! ## AccelaClient.ensure_valid_token (`accela_client.py`, lines 315-357)

The refresh attempt's failure modes: `httpx.HTTPStatusError` carries a status
code and body; everything else (`httpx.TimeoutException`, connection errors,
any other exception) lands in the generic `except Exception` handler. -/

inductive RefreshFailure
  | httpStatus (code : Nat) (body : String)
  | timeout (msg : String)
  | connectionError (msg : String)
  | otherExc (msg : String)
deriving Repr, DecidableEq

structure TokenCheckResult where
  success : Bool
  error : Option String
  needs_reauth : Bool
deriving Repr, DecidableEq

/-- `AccelaClient.ensure_valid_token` outcome given how the refresh went
(`none` = token valid or refreshed fine).  An `HTTPStatusError` yields
`needs_reauth` exactly for statuses 400/401; the generic handler sets
`needs_reauth: True` ("Assume re-auth needed on unknown errors"). -/
def ensureValidTokenResult : Option RefreshFailure → TokenCheckResult
  | none => ⟨true, none, false⟩
  | some (.httpStatus code body) =>
    ⟨false, some ("Token refresh failed (" ++ toString code ++ "): " ++ body),
      code = 400 ∨ code = 401⟩
  | some (.timeout msg) => ⟨false, some msg, true⟩
  | some (.connectionError msg) => ⟨false, some msg, true⟩
  | some (.otherExc msg) => ⟨false, some msg, true⟩

/-! ## AccelaClient.get_permits (`accela_client.py`, lines 459-630)

The paginated fetch is embedded with the upstream pages as an oracle
`fetchPage offset page_limit`; the permit records are embedded with the only
field the date validation reads plus an id. -/

structure PermitRec where
  recId : String
  openedDate : String
deriving Repr, DecidableEq

structure DateValidation where
  all_in_range : Bool
  in_range_count : Nat
  out_of_range_count : Nat
  sample_dates : List String
deriving Repr, DecidableEq

/-- `opened_date[:10] if len(opened_date) >= 10 else opened_date`. -/
def clipDate (s : String) : String :=
  if s.length ≥ 10 then ⟨s.data.take 10⟩ else s

/-- Lexicographic `<` on code-point lists: Python's string ordering. -/
def strLtChars : List Char → List Char → Bool
  | [], [] => false
  | [], _ :: _ => true
  | _ :: _, [] => false
  | a :: as, b :: bs =>
    if a < b then true else if b < a then false else strLtChars as bs

/-- Python `a <= b` on strings (`¬ (b < a)` for the total order). -/
def pyStrLe (a b : String) : Bool := !strLtChars b.data a.data

/-- `date_from <= permit_date <= date_to` on the clipped date string. -/
def permitInWindow (date_from date_to : String) (r : PermitRec) : Bool :=
  pyStrLe date_from (clipDate r.openedDate) &&
    pyStrLe (clipDate r.openedDate) date_to

/-- Insertion sort on strings (Python `sorted` over the sample-date set). -/
def insertSorted (s : String) : List String → List String
  | [] => [s]
  | t :: ts => if pyStrLe s t then s :: t :: ts else t :: insertSorted s ts

def sortStrings : List String → List String
  | [] => []
  | s :: ss => insertSorted s (sortStrings ss)

/-- The counting loop of `_validate_permit_dates`: permits with an empty
`openedDate` are ignored, every other clipped date joins the sample set and is
counted in range or out of range. -/
def validateLoop (date_from date_to : String) :
    List PermitRec → Nat → Nat → List String → Nat × Nat × List String
  | [], inR, outR, samples => (inR, outR, samples)
  | r :: rs, inR, outR, samples =>
    if r.openedDate = "" then
      validateLoop date_from date_to rs inR outR samples
    else
      let d := clipDate r.openedDate
      let samples' := if samples.contains d then samples else samples ++ [d]
      if permitInWindow date_from date_to r then
        validateLoop date_from date_to rs (inR + 1) outR samples'
      else
        validateLoop date_from date_to rs inR (outR + 1) samples'

/-- `AccelaClient._validate_permit_dates`. -/
def validatePermitDates (permits : List PermitRec)
    (date_from date_to : String) : DateValidation :=
  match permits with
  | [] => ⟨true, 0, 0, []⟩
  | _ =>
    let c := validateLoop date_from date_to permits 0 0 []
    ⟨c.2.1 = 0, c.1, c.2.1, (sortStrings c.2.2).take 10⟩

/-- The pagination loop of `get_permits`: pages of at most 100 until the
requested limit, stopping early on an empty or partial page.  Every step with
`offset < limit` advances `offset` by at least one, so fuel `limit + 1`
suffices. -/
def getPermitsPages (fetchPage : Nat → Nat → List PermitRec) (limit : Nat) :
    Nat → Nat → List PermitRec → List PermitRec
  | 0, _, acc => acc
  | fuel + 1, offset, acc =>
    if offset < limit then
      let current_page_size := min 100 (limit - offset)
      let page := fetchPage offset current_page_size
      if page = [] then acc
      else if page.length < current_page_size then acc ++ page
      else getPermitsPages fetchPage limit fuel (offset + current_page_size)
        (acc ++ page)
    else acc

structure GetPermitsOut where
  permits : List PermitRec
  date_validation : DateValidation
deriving Repr, DecidableEq

/-- `AccelaClient.get_permits`: returns every fetched record together with the
date-validation diagnostics computed over that same list.  Out-of-window
records are counted and logged but not removed, and nothing here raises. -/
def getPermits (fetchPage : Nat → Nat → List PermitRec)
    (date_from date_to : String) (limit : Nat) : GetPermitsOut :=
  let all_permits := getPermitsPages fetchPage limit (limit + 1) 0 []
  ⟨all_permits, validatePermitDates all_permits date_from date_to⟩

/-! ## Derived predicates and concrete scenario inputs -/

/-- The property's denormalized most-recent fields are the ones computed from
permit `p` dated `d` (as both `_create_property` and `_update_property`
compute them). -/
def denormFromPermit (today : PDate) (p : Permit) (d : PDate)
    (prop : Property) : Prop :=
  prop.most_recent_hvac_permit_id = p.id ∧
  prop.most_recent_hvac_date = some d ∧
  prop.hvac_age_years = calculate_hvac_age today d ∧
  prop.lead_score = calculate_lead_score (calculate_hvac_age today d) ∧
  prop.lead_tier = determine_lead_tier (calculate_hvac_age today d)

/-- A record with a nonempty date that the requested window does not contain
(`_validate_permit_dates` counts it as out of range). -/
def outOfRangePred (date_from date_to : String) (r : PermitRec) : Bool :=
  r.openedDate ≠ "" && !permitInWindow date_from date_to r

/-- A record with a nonempty date inside the requested window. -/
def inRangePred (date_from date_to : String) (r : PermitRec) : Bool :=
  r.openedDate ≠ "" && permitInWindow date_from date_to r

/-- Empty aggregation state: no properties, no leads. -/
def emptyAgg : AggState := ⟨fun _ => none, fun _ => none⟩

def blankPermit : Permit :=
  { id := none, property_address := none, opened_date := none,
    owner_name := none, owner_phone := none, owner_email := none,
    property_value := none, year_built := none, lot_size := none,
    parcel_number := none }

/-- Older permit at one formatting of the address. -/
def c1PermitOld : Permit :=
  { blankPermit with
    id := some "REC-2015-0001"
    property_address := some "123 Main St, Anytown, FL 12345"
    opened_date := some ⟨2015, 1, 1⟩ }

/-- Newer permit at another formatting of the same address. -/
def c1PermitNew : Permit :=
  { blankPermit with
    id := some "REC-2024-0007"
    property_address := some "123 MAIN STREET ANYTOWN FL 12345"
    opened_date := some ⟨2024, 1, 1⟩ }

def todayEx : PDate := ⟨2026, 10, 12⟩

/-- A job mid-flight: first attempt, one year already completed. -/
def c2JobEx : BgJob :=
  { status := "running", retry_count := 0, max_retries := none,
    years_status := fun k => if k = "1995" then some "completed" else none,
    current_year := some 1996, error_message := none }

/-- A running job whose row a user just set to `cancelled`. -/
def c6JobEx : BgJob :=
  { status := "cancelled", retry_count := 0, max_retries := none,
    years_status := fun _ => none, current_year := some 2001,
    error_message := none }

/-- Rate limiter that has seen headers: ample quota (500 of 1000 left). -/
def c4StateAmple : RateLimiterState :=
  { threshold := accelaRateLimitThreshold, fallback_delay_pagination := 2/10,
    fallback_delay_enrichment := 5/100, limit := some 1000,
    remaining := some 500, reset := some 1000 }

/-- Rate limiter that has seen headers: quota exhausted, reset in the future. -/
def c4StateExhausted : RateLimiterState :=
  { threshold := accelaRateLimitThreshold, fallback_delay_pagination := 2/10,
    fallback_delay_enrichment := 5/100, limit := some 1000,
    remaining := some 0, reset := some 1000 }

/-- An address-less historical permit. -/
def c10PermitEx : Permit :=
  { blankPermit with
    id := some "HIST-1997-0042"
    opened_date := some ⟨1997, 6, 1⟩ }

/-- Upstream page oracle returning a single record dated outside any
2020 window. -/
def c7Page : Nat → Nat → List PermitRec :=
  fun offset _ => if offset = 0 then [⟨"REC-0001", "2030-05-05"⟩] else []

def c7Out : GetPermitsOut := getPermits c7Page "2020-01-01" "2020-12-31" 100

/-! # Theorems -/

/-- Python's `<` on `date` expressed through the embedding. -/
theorem dateLt_iff (a b : PDate) : dateLt a b = true ↔
    a.year < b.year ∨ (a.year = b.year ∧
      (a.month < b.month ∨ (a.month = b.month ∧ a.day < b.day))) := by
  simp [dateLt]

theorem dateLt_asymm {a b : PDate} (h : dateLt a b = true) :
    dateLt b a = false := by
  have h1 := (dateLt_iff a b).mp h
  rw [Bool.eq_false_iff]
  intro hba
  have h2 := (dateLt_iff b a).mp hba
  omega

/-- C3: `calculate_lead_score` equals the four-band piecewise-linear function
of the claim, and the score never exceeds 100 (it is a `Nat`, so it is also
never below 0). -/
theorem c3_lead_score_piecewise (age : Nat) :
    calculate_lead_score age =
      (if age < 5 then 7 * age
       else if age < 10 then 40 + 3 * (age - 5)
       else if age < 15 then 60 + 3 * (age - 10)
       else if age < 20 then 80 + 3 * (age - 15)
       else 100) ∧
    calculate_lead_score age ≤ 100 := by
  unfold calculate_lead_score
  split_ifs <;> omega

/-- C8: `determine_lead_tier` partitions age into COLD(<5), COOL([5,10)),
WARM([10,15)), HOT(≥15); in particular tier 14 = WARM and tier 15 = HOT. -/
theorem c8_tier_boundaries (age : Nat) :
    ((determine_lead_tier age = "COLD") ↔ age < 5) ∧
    ((determine_lead_tier age = "COOL") ↔ (5 ≤ age ∧ age < 10)) ∧
    ((determine_lead_tier age = "WARM") ↔ (10 ≤ age ∧ age < 15)) ∧
    ((determine_lead_tier age = "HOT") ↔ 15 ≤ age) ∧
    determine_lead_tier 14 = "WARM" ∧ determine_lead_tier 15 = "HOT" := by
  refine ⟨?_, ?_, ?_, ?_, by decide, by decide⟩ <;>
    · unfold determine_lead_tier
      split_ifs <;> simp_all <;> omega

/-- C9: the specified normalization example, character for character. -/
theorem c9_normalize_example :
    normalize "123 Main St, Anytown, FL 12345" =
      "123 MAIN STREET ANYTOWN FL 12345" := by decide

/-- C5 counterexample: a timeout during the token refresh is NOT an HTTP
status error, yet `ensure_valid_token` reports `needs_reauth = True` (the
generic `except Exception` handler assumes re-auth on unknown errors), so the
claimed "needs_reauth iff HTTP 400/401" equivalence is false. -/
theorem c5_counterexample :
    (ensureValidTokenResult (some (.timeout "Request timeout after 30.0s"))).needs_reauth
      = true := by decide

/-- C5 amended: every refresh failure reports `success = False`;
`needs_reauth = False` (the transient, job-retryable classification) holds
exactly for HTTP status errors whose code is neither 400 nor 401.  HTTP
400/401 and every non-HTTP-status failure (timeout, connection error, any
other exception) report `needs_reauth = True`. -/
theorem c5_refresh_classification (f : RefreshFailure) :
    (ensureValidTokenResult (some f)).success = false ∧
    ((ensureValidTokenResult (some f)).needs_reauth = false ↔
      ∃ code body, f = .httpStatus code body ∧ code ≠ 400 ∧ code ≠ 401) := by
  cases f <;> simp [ensureValidTokenResult]

/-- C2: `_poll_and_process` failure handling.  A token-expiry failure is
terminal at once (status `failed`, no retry-count change).  Any other failure
with `retry_count` below `max_retries` (default 3) returns the job to
`pending`, increments `retry_count` by one and leaves the per-year completion
map untouched, and on the next attempt every year already `completed` is
skipped by the year loop rather than fetched.  At or beyond the bound the job
is permanently `failed` with the error captured. -/
theorem c2_retry_policy (job : BgJob) (msg : String) (startY endY : Nat) :
    ((handleJobFailure job (.tokenExpired msg)).status = "failed" ∧
     (handleJobFailure job (.tokenExpired msg)).retry_count = job.retry_count) ∧
    (job.retry_count < job.max_retries.getD 3 →
      (handleJobFailure job (.otherError msg)).status = "pending" ∧
      (handleJobFailure job (.otherError msg)).retry_count = job.retry_count + 1 ∧
      (handleJobFailure job (.otherError msg)).years_status = job.years_status ∧
      ∀ y : Nat, job.years_status (toString y) = some "completed" →
        y ∉ yearsFetched startY endY job.years_status) ∧
    (job.max_retries.getD 3 ≤ job.retry_count →
      (handleJobFailure job (.otherError msg)).status = "failed" ∧
      (handleJobFailure job (.otherError msg)).error_message = some msg) := by
  refine ⟨⟨rfl, rfl⟩, fun hlt => ?_, fun hge => ?_⟩
  · have hif : (job.retry_count < job.max_retries.getD 3) = True := by
      simp [hlt]
    refine ⟨?_, ?_, ?_, ?_⟩ <;>
      first
      | simp [handleJobFailure, hlt]
      | · intro y hy
          simp [yearsFetched, List.mem_filter, yearIsSkipped,
            mergedYearsStatus, hy]
  · constructor <;> simp [handleJobFailure, Nat.not_lt.mpr hge]

/-- C2 witness: the concrete mid-flight job on its first attempt, failing
with a transient error: it goes back to `pending` with retry_count 1, its
per-year map intact, and 1995 (already completed) is not re-fetched. -/
theorem c2_retry_policy_witness :
    (handleJobFailure c2JobEx (.otherError "boom")).status = "pending" ∧
    (handleJobFailure c2JobEx (.otherError "boom")).retry_count =
      c2JobEx.retry_count + 1 ∧
    (handleJobFailure c2JobEx (.otherError "boom")).years_status =
      c2JobEx.years_status ∧
    ∀ y : Nat, c2JobEx.years_status (toString y) = some "completed" →
      y ∉ yearsFetched 1995 2025 c2JobEx.years_status :=
  (c2_retry_policy c2JobEx "boom" 1995 2025).2.1 (by decide)

/-- C6 (code evaluation at the failing input): the cancellation probe does
fire for a row set to `cancelled` (and for a deleted row), but the abort is
raised as a plain `Exception`, so the generic retry handler of
`_poll_and_process` catches it and — with retries remaining — sets the
cancelled job back to `pending` with `retry_count` incremented: the
cancellation IS counted as a failure and the job is requeued, contradicting
the claim (and the cancel endpoint's own contract). -/
theorem c6_cancellation_requeued :
    isJobCancelledOrDeleted (some "cancelled") = true ∧
    isJobCancelledOrDeleted none = true ∧
    (handleJobFailure c6JobEx (.otherError cancellationExcMessage)).status
      = "pending" ∧
    (handleJobFailure c6JobEx (.otherError cancellationExcMessage)).retry_count
      = c6JobEx.retry_count + 1 := by
  refine ⟨by decide, by decide, by decide, by decide⟩

/-- C4: proactive throttling safety.  When the limiter knows both limit and
remaining: (a) with `remaining/limit` at or above the threshold no sleep
happens; (b) with `remaining = 0` and a future reset epoch, `wait_if_needed`
sleeps at least until the reset epoch (the jitter drawn from
`uniform(0.1, 0.5)` only adds to it). -/
theorem c4_rate_limiter_safety (st : RateLimiterState) (now jz jp jf : ℚ) :
    (∀ l r : Int, st.limit = some l → st.remaining = some r → 0 < l →
      st.threshold ≤ (r : ℚ) / (l : ℚ) →
      waitIfNeeded st now jz jp jf = none) ∧
    (∀ l : Int, ∀ t : ℚ, st.limit = some l → st.remaining = some 0 →
      st.reset = some t → now < t → 0 < st.threshold → (1/10 : ℚ) ≤ jz →
      ∃ d, waitIfNeeded st now jz jp jf = some d ∧ t - now ≤ d) := by
  constructor
  · intro l r hl hr _ hthr
    have hsp : shouldPause st = false := by
      simp only [shouldPause, hl, hr]
      exact decide_eq_false (not_lt.mpr hthr)
    simp [waitIfNeeded, hsp]
  · intro l t hl hr hre hfut hthr hjz
    have hsp : shouldPause st = true := by
      simp only [shouldPause, hl, hr]
      apply decide_eq_true
      rw [Int.cast_zero, zero_div]
      exact hthr
    refine ⟨getDelayUntilSafe st now jz jp jf, by simp [waitIfNeeded, hsp], ?_⟩
    simp only [getDelayUntilSafe, hl, hr, hre, Int.cast_zero]
    simp only [if_true]
    have h1 : t - now ≤ max 0 (t - now) := le_max_right 0 (t - now)
    have h2 : (0 : ℚ) < jz := lt_of_lt_of_le (by norm_num) hjz
    linarith

/-- C4 witness: with the configured 10% threshold, 500 of 1000 remaining
sleeps nothing; 0 of 1000 remaining with reset epoch 1000 at time 400 sleeps
at least 600 seconds. -/
theorem c4_rate_limiter_safety_witness :
    waitIfNeeded c4StateAmple 400 (1/10) 0 (1/10) = none ∧
    ∃ d, waitIfNeeded c4StateExhausted 400 (1/10) 0 (1/10) = some d ∧
      (1000 : ℚ) - 400 ≤ d := by
  constructor
  · exact (c4_rate_limiter_safety c4StateAmple 400 (1/10) 0 (1/10)).1
      1000 500 rfl rfl (by norm_num) (by norm_num [accelaRateLimitThreshold, c4StateAmple])
  · exact (c4_rate_limiter_safety c4StateExhausted 400 (1/10) 0 (1/10)).2
      1000 1000 rfl rfl rfl (by norm_num)
      (by norm_num [accelaRateLimitThreshold, c4StateExhausted]) (by norm_num)

/-- The counting loop of `_validate_permit_dates` counts exactly the records
with a nonempty date inside (resp. outside) the window. -/
theorem validateLoop_counts (df dt : String) :
    ∀ (rs : List PermitRec) (i o : Nat) (smp : List String),
      (validateLoop df dt rs i o smp).1 =
        i + (rs.filter (inRangePred df dt)).length ∧
      (validateLoop df dt rs i o smp).2.1 =
        o + (rs.filter (outOfRangePred df dt)).length := by
  intro rs
  induction rs with
  | nil => intro i o smp; simp [validateLoop]
  | cons r rs ih =>
    intro i o smp
    by_cases h1 : r.openedDate = ""
    · have hin : inRangePred df dt r = false := by simp [inRangePred, h1]
      have hout : outOfRangePred df dt r = false := by simp [outOfRangePred, h1]
      simp [validateLoop, h1, hin, hout, ih]
    · by_cases h2 : permitInWindow df dt r = true
      · have hin : inRangePred df dt r = true := by
          simp [inRangePred, h1, h2]
        have hout : outOfRangePred df dt r = false := by
          simp [outOfRangePred, h2]
        simp [validateLoop, h1, h2, hin, hout, ih]
        omega
      · have h2' : permitInWindow df dt r = false := by
          simpa using h2
        have hin : inRangePred df dt r = false := by
          simp [inRangePred, h2']
        have hout : outOfRangePred df dt r = true := by
          simp [outOfRangePred, h1, h2']
        simp [validateLoop, h1, h2', hin, hout, ih]
        omega

/-- `_validate_permit_dates` reports: `in_range_count` and
`out_of_range_count` are the numbers of returned records with a nonempty date
inside resp. outside the window, and `all_in_range` holds exactly when no
record is outside. -/
theorem validatePermitDates_spec (permits : List PermitRec) (df dt : String) :
    (validatePermitDates permits df dt).in_range_count =
      (permits.filter (inRangePred df dt)).length ∧
    (validatePermitDates permits df dt).out_of_range_count =
      (permits.filter (outOfRangePred df dt)).length ∧
    ((validatePermitDates permits df dt).all_in_range = true ↔
      (validatePermitDates permits df dt).out_of_range_count = 0) := by
  cases permits with
  | nil => simp [validatePermitDates]
  | cons r rs =>
    have h := validateLoop_counts df dt (r :: rs) 0 0 []
    refine ⟨?_, ?_, ?_⟩
    · simpa [validatePermitDates] using h.1
    · simpa [validatePermitDates] using h.2
    · simp [validatePermitDates]

/-- C7 counterexample: with the upstream returning one record dated
2030-05-05 for the window 2020-01-01..2020-12-31, `get_permits` still returns
that record in its `permits` list — out-of-window records are not filtered
out of the result — while `date_validation` reports the mismatch. -/
theorem c7_counterexample :
    c7Out.permits = [⟨"REC-0001", "2030-05-05"⟩] ∧
    outOfRangePred "2020-01-01" "2020-12-31" ⟨"REC-0001", "2030-05-05"⟩ = true ∧
    c7Out.date_validation.all_in_range = false ∧
    c7Out.date_validation.out_of_range_count = 1 := by decide

/-- C7 amended: `get_permits` hands back every fetched record in `permits`
unchanged (no date-based filtering — that happens in the caller), and the
returned `date_validation` diagnostics report out-of-window records:
`in_range_count`/`out_of_range_count` count the records with a nonempty date
inside resp. outside the requested window, and `all_in_range` holds exactly
when none is outside.  The validation never raises, so such records never
abort the operation. -/
theorem c7_permits_reported_not_filtered
    (fetchPage : Nat → Nat → List PermitRec) (df dt : String) (lim : Nat) :
    (getPermits fetchPage df dt lim).permits =
      getPermitsPages fetchPage lim (lim + 1) 0 [] ∧
    (getPermits fetchPage df dt lim).date_validation.in_range_count =
      ((getPermits fetchPage df dt lim).permits.filter (inRangePred df dt)).length ∧
    (getPermits fetchPage df dt lim).date_validation.out_of_range_count =
      ((getPermits fetchPage df dt lim).permits.filter (outOfRangePred df dt)).length ∧
    ((getPermits fetchPage df dt lim).date_validation.all_in_range = true ↔
      (getPermits fetchPage df dt lim).date_validation.out_of_range_count = 0) := by
  have h := validatePermitDates_spec
    (getPermitsPages fetchPage lim (lim + 1) 0 []) df dt
  exact ⟨rfl, h.1, h.2.1, h.2.2⟩

/-- Appending to the fixed `PERMIT-` prefix is injective. -/
theorem permitKey_inj {a b : String} (h : "PERMIT-" ++ a = "PERMIT-" ++ b) :
    a = b := by
  have hd := congrArg String.data h
  rw [String.data_append, String.data_append] at hd
  exact String.ext (List.append_cancel_left hd)

/-- C10: a permit whose `property_address` is missing (or empty) but that has
a date is not skipped: `process_permit` substitutes the synthetic
`PERMIT-<permit id>` key as the normalized address for the property lookup,
returns a property, and on first sight creates a property and a lead; two
address-less permits with different ids use different keys, so they never
aggregate together. -/
theorem c10_addressless_synthetic_key (today : PDate) (st : AggState)
    (p : Permit) (d : PDate)
    (haddr : p.property_address = none ∨ p.property_address = some "")
    (hdate : p.opened_date = some d) :
    lookupKeyOf p = "PERMIT-" ++ p.id.getD "unknown" ∧
    (processPermit today st p).property_key ≠ none ∧
    (st.props (lookupKeyOf p) = none →
      (processPermit today st p).was_created = true ∧
      (processPermit today st p).state.props (storeKeyOf p) ≠ none ∧
      (processPermit today st p).state.leads (storeKeyOf p) ≠ none) ∧
    (∀ q : Permit, (q.property_address = none ∨ q.property_address = some "") →
      q.id.getD "unknown" ≠ p.id.getD "unknown" →
      lookupKeyOf q ≠ lookupKeyOf p) := by
  have hkey : lookupKeyOf p = "PERMIT-" ++ p.id.getD "unknown" := by
    rcases haddr with h | h <;> simp [lookupKeyOf, h]
  refine ⟨hkey, ?_, ?_, ?_⟩
  · simp only [processPermit, hdate]
    cases hpp : st.props (lookupKeyOf p) <;> (simp [hpp]; try (split <;> simp))
  · intro h0
    refine ⟨?_, ?_, ?_⟩ <;> simp [processPermit, hdate, h0]
  · intro q hq hne
    have hkq : lookupKeyOf q = "PERMIT-" ++ q.id.getD "unknown" := by
      rcases hq with h | h <;> simp [lookupKeyOf, h]
    rw [hkey, hkq]
    intro heq
    exact hne (permitKey_inj heq)

/-- C10 witness: the concrete address-less 1997 permit against an empty
store. -/
theorem c10_addressless_synthetic_key_witness :
    lookupKeyOf c10PermitEx = "PERMIT-" ++ c10PermitEx.id.getD "unknown" ∧
    (processPermit todayEx emptyAgg c10PermitEx).property_key ≠ none ∧
    (emptyAgg.props (lookupKeyOf c10PermitEx) = none →
      (processPermit todayEx emptyAgg c10PermitEx).was_created = true ∧
      (processPermit todayEx emptyAgg c10PermitEx).state.props
        (storeKeyOf c10PermitEx) ≠ none ∧
      (processPermit todayEx emptyAgg c10PermitEx).state.leads
        (storeKeyOf c10PermitEx) ≠ none) ∧
    (∀ q : Permit, (q.property_address = none ∨ q.property_address = some "") →
      q.id.getD "unknown" ≠ c10PermitEx.id.getD "unknown" →
      lookupKeyOf q ≠ lookupKeyOf c10PermitEx) :=
  c10_addressless_synthetic_key todayEx emptyAgg c10PermitEx ⟨1997, 6, 1⟩
    (Or.inl rfl) rfl

/-- Shape of one `process_permit` step that creates a property: the permit has
a date and no property exists at its lookup key. -/
theorem processPermit_create_shape (today : PDate) (st : AggState) (p : Permit)
    (d : PDate) (hd : p.opened_date = some d)
    (h0 : st.props (lookupKeyOf p) = none) :
    (processPermit today st p).state.props =
      (fun q => if q = storeKeyOf p then
          some (createdProperty today p d (storeKeyOf p))
        else st.props q) := by
  simp [processPermit, hd, h0]

/-- Shape of one `process_permit` step that overwrites: a property exists at
the lookup key and the permit is strictly more recent than its stored date. -/
theorem processPermit_update_shape (today : PDate) (st : AggState) (p : Permit)
    (d : PDate) (prop : Property) (cur : PDate)
    (hd : p.opened_date = some d)
    (hprop : st.props (lookupKeyOf p) = some prop)
    (hcur : prop.most_recent_hvac_date = some cur)
    (hclt : dateLt cur d = true) :
    (processPermit today st p).state.props =
      (fun q => if q = lookupKeyOf p then
          some (updatedProperty today p d prop)
        else st.props q) := by
  simp [processPermit, hd, hprop, hcur, hclt]

/-- Shape of one `process_permit` step on an older (or equal-dated) permit: a
property exists, the permit's date is not strictly greater, so only the
running counter changes and the leads table is untouched. -/
theorem processPermit_older_shape (today : PDate) (st : AggState) (p : Permit)
    (d : PDate) (prop : Property) (cur : PDate)
    (hd : p.opened_date = some d)
    (hprop : st.props (lookupKeyOf p) = some prop)
    (hcur : prop.most_recent_hvac_date = some cur)
    (hclt : dateLt cur d = false) :
    (processPermit today st p).state.props =
      (fun q => if q = lookupKeyOf p then
          some { prop with total_hvac_permits := prop.total_hvac_permits + 1 }
        else st.props q) ∧
    (processPermit today st p).state.leads = st.leads := by
  constructor
  · simp [processPermit, hd, hprop, hcur, hclt]
  · simp [processPermit, hd, hprop, hcur, hclt]

/-- C1: most-recent-wins merge.  Two permits at addresses normalizing to the
same key `k`, dated `d1 < d2`, processed in either order against a store with
no property at `k`, leave the property's denormalized fields (most-recent
permit id and date, age, score, tier) computed from the permit dated `d2`,
with the running permit counter at 2; and the older permit, when processed
second, only increments that counter (the property is otherwise untouched and
no lead update happens). -/
theorem c1_monotonic_merge (today : PDate) (p1 p2 : Permit) (a1 a2 : String)
    (d1 d2 : PDate) (st0 : AggState) (k : String)
    (ha1 : p1.property_address = some a1) (hne1 : a1 ≠ "")
    (ha2 : p2.property_address = some a2) (hne2 : a2 ≠ "")
    (hk1 : normalize a1 = k) (hk2 : normalize a2 = k)
    (hd1 : p1.opened_date = some d1) (hd2 : p2.opened_date = some d2)
    (hlt : dateLt d1 d2 = true) (h0 : st0.props k = none) :
    ∃ propA propB,
      (processPermit today (processPermit today st0 p1).state p2).state.props k
        = some propA ∧
      (processPermit today (processPermit today st0 p2).state p1).state.props k
        = some propB ∧
      denormFromPermit today p2 d2 propA ∧
      denormFromPermit today p2 d2 propB ∧
      propA.total_hvac_permits = 2 ∧ propB.total_hvac_permits = 2 ∧
      (∃ q, (processPermit today st0 p2).state.props k = some q ∧
        propB = { q with total_hvac_permits := q.total_hvac_permits + 1 } ∧
        (processPermit today (processPermit today st0 p2).state p1).state.leads
          = (processPermit today st0 p2).state.leads) ∧
      (∀ (st : AggState) (p : Permit) (dd : PDate) (prop : Property)
          (cur : PDate), p.opened_date = some dd →
        st.props (lookupKeyOf p) = some prop →
        prop.most_recent_hvac_date = some cur → dateLt cur dd = false →
        (processPermit today st p).state.props (lookupKeyOf p) =
          some { prop with
                 total_hvac_permits := prop.total_hvac_permits + 1 }) := by
  have hlk1 : lookupKeyOf p1 = k := by simp [lookupKeyOf, ha1, hne1, hk1]
  have hsk1 : storeKeyOf p1 = k := by simp [storeKeyOf, ha1, hne1, hk1]
  have hlk2 : lookupKeyOf p2 = k := by simp [lookupKeyOf, ha2, hne2, hk2]
  have hsk2 : storeKeyOf p2 = k := by simp [storeKeyOf, ha2, hne2, hk2]
  have hflat : dateLt d2 d1 = false := dateLt_asymm hlt
  have hcp1date : (createdProperty today p1 d1 k).most_recent_hvac_date
      = some d1 := rfl
  have hcp2date : (createdProperty today p2 d2 k).most_recent_hvac_date
      = some d2 := rfl
  -- first order: the older permit creates the property, the newer overwrites
  have hpropsA1 := processPermit_create_shape today st0 p1 d1 hd1
    (by rw [hlk1]; exact h0)
  rw [hsk1] at hpropsA1
  have hS1prop : (processPermit today st0 p1).state.props (lookupKeyOf p2)
      = some (createdProperty today p1 d1 k) := by
    rw [hlk2, hpropsA1]; simp
  have hstepA := processPermit_update_shape today
    (processPermit today st0 p1).state p2 d2
    (createdProperty today p1 d1 k) d1 hd2 hS1prop hcp1date hlt
  rw [hlk2] at hstepA
  have hA : (processPermit today (processPermit today st0 p1).state p2).state.props k
      = some (updatedProperty today p2 d2 (createdProperty today p1 d1 k)) := by
    rw [hstepA]; simp
  -- second order: the newer permit creates, the older only counts
  have hpropsB1 := processPermit_create_shape today st0 p2 d2 hd2
    (by rw [hlk2]; exact h0)
  rw [hsk2] at hpropsB1
  have hS2prop : (processPermit today st0 p2).state.props (lookupKeyOf p1)
      = some (createdProperty today p2 d2 k) := by
    rw [hlk1, hpropsB1]; simp
  have hstepB := processPermit_older_shape today
    (processPermit today st0 p2).state p1 d1
    (createdProperty today p2 d2 k) d2 hd1 hS2prop hcp2date hflat
  rw [hlk1] at hstepB
  have hB : (processPermit today (processPermit today st0 p2).state p1).state.props k
      = some { createdProperty today p2 d2 k with
               total_hvac_permits :=
                 (createdProperty today p2 d2 k).total_hvac_permits + 1 } := by
    rw [hstepB.1]; simp
  have hq : (processPermit today st0 p2).state.props k
      = some (createdProperty today p2 d2 k) := by
    rw [hpropsB1]; simp
  refine ⟨updatedProperty today p2 d2 (createdProperty today p1 d1 k),
    { createdProperty today p2 d2 k with
      total_hvac_permits :=
        (createdProperty today p2 d2 k).total_hvac_permits + 1 },
    hA, hB, ?_, ?_, ?_, ?_, ⟨createdProperty today p2 d2 k, hq, rfl, hstepB.2⟩,
    ?_⟩
  · simp [denormFromPermit, updatedProperty]
  · simp [denormFromPermit, createdProperty]
  · simp [updatedProperty, createdProperty]
  · simp [createdProperty]
  · intro st p dd prop cur hdd hprop hcur hnlt
    rw [(processPermit_older_shape today st p dd prop cur hdd hprop hcur hnlt).1]
    simp

/-- C1 witness: the 2015 and 2024 permits at two formattings of the same
address, against an empty store. -/
theorem c1_monotonic_merge_witness :
    ∃ propA propB,
      (processPermit todayEx
        (processPermit todayEx emptyAgg c1PermitOld).state c1PermitNew).state.props
          "123 MAIN STREET ANYTOWN FL 12345" = some propA ∧
      (processPermit todayEx
        (processPermit todayEx emptyAgg c1PermitNew).state c1PermitOld).state.props
          "123 MAIN STREET ANYTOWN FL 12345" = some propB ∧
      denormFromPermit todayEx c1PermitNew ⟨2024, 1, 1⟩ propA ∧
      denormFromPermit todayEx c1PermitNew ⟨2024, 1, 1⟩ propB ∧
      propA.total_hvac_permits = 2 ∧ propB.total_hvac_permits = 2 ∧
      (∃ q, (processPermit todayEx emptyAgg c1PermitNew).state.props
          "123 MAIN STREET ANYTOWN FL 12345" = some q ∧
        propB = { q with total_hvac_permits := q.total_hvac_permits + 1 } ∧
        (processPermit todayEx
          (processPermit todayEx emptyAgg c1PermitNew).state c1PermitOld).state.leads
          = (processPermit todayEx emptyAgg c1PermitNew).state.leads) ∧
      (∀ (st : AggState) (p : Permit) (dd : PDate) (prop : Property)
          (cur : PDate), p.opened_date = some dd →
        st.props (lookupKeyOf p) = some prop →
        prop.most_recent_hvac_date = some cur → dateLt cur dd = false →
        (processPermit todayEx st p).state.props (lookupKeyOf p) =
          some { prop with
                 total_hvac_permits := prop.total_hvac_permits + 1 }) :=
  c1_monotonic_merge todayEx c1PermitOld c1PermitNew
    "123 Main St, Anytown, FL 12345" "123 MAIN STREET ANYTOWN FL 12345"
    ⟨2015, 1, 1⟩ ⟨2024, 1, 1⟩ emptyAgg "123 MAIN STREET ANYTOWN FL 12345"
    rfl (by decide) rfl (by decide) (by decide) (by decide) rfl rfl
    (by decide) rfl

end HVAC
